import Mathlib

/-!
Verification of the line-crossing core of the vehicle-detection-system
repository: `src/utils.py` (`line_intersection`) and `src/line_counter.py`
(`LineCounter`).  The embedding is generic over the coordinate type through
the `PyNum` class, instantiated at `ℚ` for exact-arithmetic claims and at
`PyFloat` (a model of Python floats with NaN and infinities) for the
data-quality claim about non-finite centroids.
-/

/-- Arithmetic and comparison operations of the coordinate type, as Python
uses them in `utils.line_intersection` and `LineCounter._determine_direction`:
binary subtraction, multiplication, and the boolean-valued strict
comparisons `>` and `<`. -/
class PyNum (α : Type) where
  sub : α → α → α
  mul : α → α → α
  gt : α → α → Bool
  lt : α → α → Bool

/-- Exact rational coordinates: Python comparisons are the mathematical ones. -/
instance ratPyNum : PyNum ℚ where
  sub a b := a - b
  mul a b := a * b
  gt a b := decide (b < a)
  lt a b := decide (a < b)

/-- Model of a Python float for the non-finite-input claim: a finite value
(arbitrary-precision rational, overflow to infinity is not modelled because
the inputs considered stay small), NaN, +inf or -inf. -/
inductive PyFloat : Type where
  | fin (q : ℚ)
  | nan
  | pinf
  | ninf
deriving DecidableEq

/-- IEEE-754 subtraction on the `PyFloat` model: any NaN operand gives NaN,
inf - inf of equal sign gives NaN. -/
def PyFloat.sub : PyFloat → PyFloat → PyFloat
  | .nan, _ => .nan
  | _, .nan => .nan
  | .fin a, .fin b => .fin (a - b)
  | .fin _, .pinf => .ninf
  | .fin _, .ninf => .pinf
  | .pinf, .fin _ => .pinf
  | .pinf, .pinf => .nan
  | .pinf, .ninf => .pinf
  | .ninf, .fin _ => .ninf
  | .ninf, .pinf => .ninf
  | .ninf, .ninf => .nan

/-- IEEE-754 multiplication on the `PyFloat` model: any NaN operand gives
NaN, infinity times zero gives NaN. -/
def PyFloat.mul : PyFloat → PyFloat → PyFloat
  | .nan, _ => .nan
  | _, .nan => .nan
  | .fin a, .fin b => .fin (a * b)
  | .fin a, .pinf => if 0 < a then .pinf else if a < 0 then .ninf else .nan
  | .fin a, .ninf => if 0 < a then .ninf else if a < 0 then .pinf else .nan
  | .pinf, .fin b => if 0 < b then .pinf else if b < 0 then .ninf else .nan
  | .ninf, .fin b => if 0 < b then .ninf else if b < 0 then .pinf else .nan
  | .pinf, .pinf => .pinf
  | .pinf, .ninf => .ninf
  | .ninf, .pinf => .ninf
  | .ninf, .ninf => .pinf

/-- IEEE-754 strict less-than on the `PyFloat` model: every comparison
involving NaN is false. -/
def PyFloat.lt : PyFloat → PyFloat → Bool
  | .nan, _ => false
  | _, .nan => false
  | .fin a, .fin b => decide (a < b)
  | .fin _, .pinf => true
  | .fin _, .ninf => false
  | .pinf, _ => false
  | .ninf, .pinf => true
  | .ninf, .fin _ => true
  | .ninf, .ninf => false

instance pyFloatPyNum : PyNum PyFloat where
  sub := PyFloat.sub
  mul := PyFloat.mul
  gt a b := PyFloat.lt b a
  lt := PyFloat.lt

/-- The counter-clockwise orientation predicate, the inner `ccw` of
`utils.line_intersection`:
`(C[1] - A[1]) * (B[0] - A[0]) > (B[1] - A[1]) * (C[0] - A[0])`. -/
def ccw {α : Type} [PyNum α] (A B C : α × α) : Bool :=
  PyNum.gt (PyNum.mul (PyNum.sub C.2 A.2) (PyNum.sub B.1 A.1))
    (PyNum.mul (PyNum.sub B.2 A.2) (PyNum.sub C.1 A.1))

/-- `utils.line_intersection`: segment `p1`-`p2` intersects segment
`line_start`-`line_end` iff
`ccw(A,C,D) != ccw(B,C,D) and ccw(A,B,C) != ccw(A,B,D)`
with `A, B = p1, p2` and `C, D = line_start, line_end`. -/
def line_intersection {α : Type} [PyNum α]
    (p1 p2 line_start line_end : α × α) : Bool :=
  (ccw p1 line_start line_end != ccw p2 line_start line_end) &&
    (ccw p1 p2 line_start != ccw p1 p2 line_end)

/-- `tracker.TrackedObject`: the per-frame observation record consumed by
`LineCounter.update`. -/
structure TrackedObject (α : Type) where
  track_id : Int
  bbox : List α
  confidence : α
  class_id : Int
  class_name : String
  centroid : α × α

/-- `line_counter.CrossingEvent`.  The `timestamp` field is
`datetime.now()` wall-clock text in the source, a nondeterministic
environment read; it is modelled opaquely as `Unit`. -/
structure CrossingEvent (α : Type) where
  track_id : Int
  timestamp : Unit
  direction : String
  class_name : String
  centroid : α × α

/-- The `LineCounter` object: configuration fields (`line_start`,
`line_end`, `direction_type`, all set in `__init__` and never mutated) and
mutable state (`previous_positions`, `crossed_ids`, `crossing_events` and
the four counters).  The Python `dict` and `set` are modelled as total
lookup functions. -/
structure LineCounter (α : Type) where
  line_start : α × α
  line_end : α × α
  direction_type : String
  previous_positions : Int → Option (α × α)
  crossed_ids : Int → Bool
  crossing_events : List (CrossingEvent α)
  count_up : Nat
  count_down : Nat
  count_left : Nat
  count_right : Nat

/-- The state `LineCounter.__init__` builds once the four coordinates have
been unpacked: empty registry, empty crossed-set, empty event log, all
counters zero. -/
def LineCounter.mk0 {α : Type} (line_start line_end : α × α)
    (direction_type : String) : LineCounter α :=
  { line_start := line_start
    line_end := line_end
    direction_type := direction_type
    previous_positions := fun _ => none
    crossed_ids := fun _ => false
    crossing_events := []
    count_up := 0
    count_down := 0
    count_left := 0
    count_right := 0 }

/-- `LineCounter.__init__`: the statement
`x1, y1, x2, y2 = config.line.coordinates` raises `ValueError` unless the
coordinate list has exactly four elements; no other validation of the line
geometry is performed. -/
def LineCounter.init {α : Type} (coordinates : List α)
    (direction : String) : Except String (LineCounter α) :=
  match coordinates with
  | [x1, y1, x2, y2] => .ok (LineCounter.mk0 (x1, y1) (x2, y2) direction)
  | _ => .error "ValueError: cannot unpack line coordinates"

/-- `LineCounter._determine_direction`: reads only `self.direction_type`
and the two centroids. -/
def LineCounter.determine_direction {α : Type} [PyNum α] (s : LineCounter α)
    (prev_pos current_pos : α × α) : String :=
  if s.direction_type = "vertical" then
    if PyNum.lt current_pos.2 prev_pos.2 then "up" else "down"
  else
    if PyNum.lt current_pos.1 prev_pos.1 then "left" else "right"

/-- `LineCounter._record_crossing`: append the event, then increment the
counter selected by the `if`/`elif` chain on `direction`. -/
def LineCounter.record_crossing {α : Type} (s : LineCounter α)
    (track_id : Int) (direction : String) (class_name : String)
    (centroid : α × α) : LineCounter α :=
  let s1 := { s with crossing_events :=
    s.crossing_events ++ [⟨track_id, (), direction, class_name, centroid⟩] }
  if direction = "up" then { s1 with count_up := s1.count_up + 1 }
  else if direction = "down" then { s1 with count_down := s1.count_down + 1 }
  else if direction = "left" then { s1 with count_left := s1.count_left + 1 }
  else if direction = "right" then { s1 with count_right := s1.count_right + 1 }
  else s1

/-- One iteration of the `for obj in tracked_objects` loop of
`LineCounter.update`: if a previous position exists and the trajectory
step intersects the line and the id has not yet crossed, record the
crossing and add the id to `crossed_ids`; in every case overwrite
`previous_positions[track_id]` with the current centroid. -/
def LineCounter.step {α : Type} [PyNum α] (s : LineCounter α)
    (obj : TrackedObject α) : LineCounter α :=
  let s1 :=
    match s.previous_positions obj.track_id with
    | some prev_pos =>
      if line_intersection prev_pos obj.centroid s.line_start s.line_end then
        if !(s.crossed_ids obj.track_id) then
          let s2 := s.record_crossing obj.track_id
            (s.determine_direction prev_pos obj.centroid)
            obj.class_name obj.centroid
          { s2 with crossed_ids := Function.update s2.crossed_ids obj.track_id true }
        else s
      else s
    | none => s
  { s1 with previous_positions :=
      Function.update s1.previous_positions obj.track_id (some obj.centroid) }

/-- `LineCounter.update`: fold the loop body over the tick's observation
list in order. -/
def LineCounter.update {α : Type} [PyNum α] (s : LineCounter α)
    (tracked_objects : List (TrackedObject α)) : LineCounter α :=
  tracked_objects.foldl LineCounter.step s

/-- A whole sequence of `update` calls (ticks), in order. -/
def LineCounter.run {α : Type} [PyNum α] (s : LineCounter α)
    (ticks : List (List (TrackedObject α))) : LineCounter α :=
  ticks.foldl LineCounter.update s

/-- `LineCounter.get_total_count`. -/
def LineCounter.get_total_count {α : Type} (s : LineCounter α) : Nat :=
  s.count_up + s.count_down + s.count_left + s.count_right

/-- The dictionary returned by `LineCounter.get_statistics`. -/
structure Statistics where
  total : Nat
  up : Nat
  down : Nat
  left : Nat
  right : Nat
deriving DecidableEq

/-- `LineCounter.get_statistics`. -/
def LineCounter.get_statistics {α : Type} (s : LineCounter α) : Statistics :=
  { total := s.get_total_count
    up := s.count_up
    down := s.count_down
    left := s.count_left
    right := s.count_right }

/-- `LineCounter.reset`: clear registry, crossed-set and event log, zero
the four counters; the line configuration fields are untouched. -/
def LineCounter.reset {α : Type} (s : LineCounter α) : LineCounter α :=
  { s with
    previous_positions := fun _ => none
    crossed_ids := fun _ => false
    crossing_events := []
    count_up := 0
    count_down := 0
    count_left := 0
    count_right := 0 }

/-- Proof-side characterisation: the loop body records a crossing for
`obj` exactly when this boolean holds. -/
def LineCounter.hit {α : Type} [PyNum α] (s : LineCounter α)
    (obj : TrackedObject α) : Bool :=
  match s.previous_positions obj.track_id with
  | some prev_pos =>
    line_intersection prev_pos obj.centroid s.line_start s.line_end &&
      !(s.crossed_ids obj.track_id)
  | none => false

/-- Proof-side characterisation: the direction label the loop body would
record for `obj` (dummy `"down"` when there is no previous position). -/
def LineCounter.stepDir {α : Type} [PyNum α] (s : LineCounter α)
    (obj : TrackedObject α) : String :=
  match s.previous_positions obj.track_id with
  | some prev_pos => s.determine_direction prev_pos obj.centroid
  | none => "down"

/-! ### Characterisation lemmas for the loop body -/

lemma LineCounter.record_crossing_eq {α : Type} (s : LineCounter α)
    (t : Int) (d c : String) (p : α × α) :
    s.record_crossing t d c p =
      { s with
        crossing_events := s.crossing_events ++ [⟨t, (), d, c, p⟩]
        count_up := if d = "up" then s.count_up + 1 else s.count_up
        count_down := if d = "down" then s.count_down + 1 else s.count_down
        count_left := if d = "left" then s.count_left + 1 else s.count_left
        count_right := if d = "right" then s.count_right + 1 else s.count_right } := by
  unfold LineCounter.record_crossing
  split_ifs <;> simp_all

lemma LineCounter.determine_direction_mem {α : Type} [PyNum α]
    (s : LineCounter α) (p c : α × α) :
    s.determine_direction p c = "up" ∨ s.determine_direction p c = "down" ∨
      s.determine_direction p c = "left" ∨ s.determine_direction p c = "right" := by
  unfold LineCounter.determine_direction
  split_ifs <;> simp

lemma LineCounter.stepDir_mem {α : Type} [PyNum α]
    (s : LineCounter α) (o : TrackedObject α) :
    s.stepDir o = "up" ∨ s.stepDir o = "down" ∨
      s.stepDir o = "left" ∨ s.stepDir o = "right" := by
  unfold LineCounter.stepDir
  rcases h : s.previous_positions o.track_id with _ | p
  · simp
  · exact s.determine_direction_mem p o.centroid

lemma LineCounter.hit_crossed {α : Type} [PyNum α]
    (s : LineCounter α) (o : TrackedObject α) (h : s.hit o = true) :
    s.crossed_ids o.track_id = false := by
  unfold LineCounter.hit at h
  rcases hp : s.previous_positions o.track_id with _ | p <;> rw [hp] at h
  · simp at h
  · simp only [Bool.and_eq_true, Bool.not_eq_true'] at h
    exact h.2

lemma LineCounter.step_eq {α : Type} [PyNum α] (s : LineCounter α)
    (o : TrackedObject α) :
    s.step o =
      { s with
        previous_positions :=
          Function.update s.previous_positions o.track_id (some o.centroid)
        crossed_ids := if s.hit o then
          Function.update s.crossed_ids o.track_id true else s.crossed_ids
        crossing_events := if s.hit o then
          s.crossing_events ++
            [⟨o.track_id, (), s.stepDir o, o.class_name, o.centroid⟩]
          else s.crossing_events
        count_up := if s.hit o ∧ s.stepDir o = "up" then
          s.count_up + 1 else s.count_up
        count_down := if s.hit o ∧ s.stepDir o = "down" then
          s.count_down + 1 else s.count_down
        count_left := if s.hit o ∧ s.stepDir o = "left" then
          s.count_left + 1 else s.count_left
        count_right := if s.hit o ∧ s.stepDir o = "right" then
          s.count_right + 1 else s.count_right } := by
  unfold LineCounter.step LineCounter.hit LineCounter.stepDir
  rcases hp : s.previous_positions o.track_id with _ | p
  · simp
  · by_cases hli : line_intersection p o.centroid s.line_start s.line_end
    · by_cases hc : s.crossed_ids o.track_id
      · simp [hli, hc]
      · simp only [Bool.not_eq_true] at hc
        simp [hli, hc, LineCounter.record_crossing_eq]
    · simp [hli]

/-! ### Fold-preservation and geometry helper lemmas -/

lemma LineCounter.update_inv {α : Type} [PyNum α] (P : LineCounter α → Prop)
    (hstep : ∀ s o, P s → P (s.step o)) :
    ∀ (l : List (TrackedObject α)) (s : LineCounter α), P s → P (s.update l) := by
  intro l
  induction l with
  | nil => intro s h; exact h
  | cons o l ih =>
    intro s h
    show P ((s.step o).update l)
    exact ih (s.step o) (hstep s o h)

lemma LineCounter.run_inv {α : Type} [PyNum α] (P : LineCounter α → Prop)
    (hstep : ∀ s o, P s → P (s.step o)) :
    ∀ (ticks : List (List (TrackedObject α))) (s : LineCounter α),
      P s → P (s.run ticks) := by
  intro ticks
  induction ticks with
  | nil => intro s h; exact h
  | cons tk ticks ih =>
    intro s h
    show P ((s.update tk).run ticks)
    exact ih (s.update tk) (LineCounter.update_inv P hstep tk s h)

lemma ccw_rat_collinear (A B C : ℚ × ℚ)
    (h : (C.2 - A.2) * (B.1 - A.1) = (B.2 - A.2) * (C.1 - A.1)) :
    ccw A B C = false := by
  simp [ccw, ratPyNum, PyNum.gt, h]

lemma ccw_rat_last_degenerate (X q : ℚ × ℚ) : ccw X q q = false := by
  simp [ccw, ratPyNum, PyNum.gt]

lemma line_intersection_degenerate_line (A B q : ℚ × ℚ) :
    line_intersection A B q q = false := by
  simp [line_intersection, ccw_rat_last_degenerate]

lemma line_intersection_degenerate_step {α : Type} [PyNum α] (A C D : α × α) :
    line_intersection A A C D = false := by
  simp [line_intersection]

/-! ### Claim C2 -/

/-- Claim C2: `line_intersection` uses the strict orientation test (`>`
not `≥`): an exactly-collinear triple makes `ccw` false, hence a collinear
touch is a non-crossing; for the line (0,100)-(100,0) the step
(0,0)→(100,100) intersects and (0,0)→(40,40) does not; the function is
total, and on degenerate zero-length segments (either the trajectory step
or the line) it deterministically returns false rather than raising. -/
theorem C2_line_intersection_strict :
    (∀ A B C : ℚ × ℚ,
      (C.2 - A.2) * (B.1 - A.1) = (B.2 - A.2) * (C.1 - A.1) →
        ccw A B C = false)
    ∧ line_intersection ((0:ℚ), 0) (100, 100) (0, 100) (100, 0) = true
    ∧ line_intersection ((0:ℚ), 0) (40, 40) (0, 100) (100, 0) = false
    ∧ line_intersection ((0:ℚ), 0) (50, 50) (0, 100) (100, 0) = false
    ∧ (∀ p C D : ℚ × ℚ, line_intersection p p C D = false)
    ∧ (∀ A B q : ℚ × ℚ, line_intersection A B q q = false) := by
  refine ⟨ccw_rat_collinear, ?_, ?_, ?_, ?_, line_intersection_degenerate_line⟩
  · norm_num [line_intersection, ccw, ratPyNum]
  · norm_num [line_intersection, ccw, ratPyNum]
  · norm_num [line_intersection, ccw, ratPyNum]
  · intro p C D
    exact line_intersection_degenerate_step p C D

/-- Witness for C2: the collinear-strictness clause applied to the
concrete collinear triple (0,0), (1,1), (2,2). -/
theorem C2_line_intersection_strict_witness :
    ccw ((0:ℚ), 0) (1, 1) (2, 2) = false :=
  C2_line_intersection_strict.1 (0, 0) (1, 1) (2, 2) (by norm_num)

/-! ### Claim C3 -/

/-- Claim C3: `_determine_direction` is a pure function of the previous
centroid, the current centroid and the orientation tag only; for tag
`"vertical"` it returns `"up"` iff `current.y < previous.y` and `"down"`
otherwise (ties give `"down"`), for tag `"horizontal"` it returns
`"left"` iff `current.x < previous.x` and `"right"` otherwise; with the
spec's three concrete evaluations. -/
theorem C3_classifier :
    (∀ s t : LineCounter ℚ, ∀ p c : ℚ × ℚ,
      s.direction_type = t.direction_type →
        s.determine_direction p c = t.determine_direction p c)
    ∧ (∀ s : LineCounter ℚ, ∀ p c : ℚ × ℚ, s.direction_type = "vertical" →
        s.determine_direction p c = if c.2 < p.2 then "up" else "down")
    ∧ (∀ s : LineCounter ℚ, ∀ p c : ℚ × ℚ, s.direction_type = "horizontal" →
        s.determine_direction p c = if c.1 < p.1 then "left" else "right")
    ∧ (LineCounter.mk0 ((0:ℚ), 0) (1, 1) "vertical").determine_direction
        (5, 10) (5, 4) = "up"
    ∧ (LineCounter.mk0 ((0:ℚ), 0) (1, 1) "vertical").determine_direction
        (5, 10) (5, 10) = "down"
    ∧ (LineCounter.mk0 ((0:ℚ), 0) (1, 1) "horizontal").determine_direction
        (10, 5) (4, 5) = "left" := by
  refine ⟨?_, ?_, ?_, ?_, ?_, ?_⟩
  · intro s t p c h
    unfold LineCounter.determine_direction
    rw [h]
  · intro s p c h
    simp [LineCounter.determine_direction, h, ratPyNum]
  · intro s p c h
    simp [LineCounter.determine_direction, h, ratPyNum]
  · norm_num [LineCounter.determine_direction, LineCounter.mk0, ratPyNum]
  · norm_num [LineCounter.determine_direction, LineCounter.mk0, ratPyNum]
  · norm_num [LineCounter.determine_direction, LineCounter.mk0, ratPyNum]
    intro h
    exact absurd h (by decide)

/-- Witness for C3: the three hypothesis-bearing clauses applied at
concrete classifier states and centroids. -/
theorem C3_classifier_witness :
    (LineCounter.mk0 ((0:ℚ), 0) (1, 1) "vertical").determine_direction
        (2, 3) (4, 9) =
      (LineCounter.mk0 ((5:ℚ), 5) (6, 6) "vertical").determine_direction
        (2, 3) (4, 9)
    ∧ (LineCounter.mk0 ((0:ℚ), 0) (1, 1) "vertical").determine_direction
        (7, 7) (7, 7) = (if (7:ℚ) < 7 then "up" else "down")
    ∧ (LineCounter.mk0 ((0:ℚ), 0) (1, 1) "horizontal").determine_direction
        (8, 1) (9, 1) = (if (9:ℚ) < 8 then "left" else "right") :=
  ⟨C3_classifier.1 _ _ _ _ rfl, C3_classifier.2.1 _ _ _ rfl,
    C3_classifier.2.2.1 _ _ _ rfl⟩

/-! ### Claim C4 -/

/-- Whether a Python call completed without raising. -/
def exceptIsOk {ε σ : Type} : Except ε σ → Bool
  | .ok _ => true
  | .error _ => false

/-- Counterexample to C4 as stated: constructing the counter with the
zero-length line (100,100)-(100,100) succeeds — `__init__` performs no
geometry validation beyond tuple unpacking, so a start==end configuration
does not fail at construction. -/
theorem C4_construction_counterexample :
    exceptIsOk (LineCounter.init ([100, 100, 100, 100] : List ℚ) "vertical") =
      true := rfl

/-- Claim C4 amended: construction fails (ValueError from unpacking) iff
the coordinate list does not have exactly four elements; a zero-length
line (start == end) is accepted, and the resulting instance silently
degrades: its intersection test is constantly false. -/
theorem C4_construction_amended :
    (∀ (coordinates : List ℚ) (d : String), coordinates.length ≠ 4 →
      exceptIsOk (LineCounter.init coordinates d) = false)
    ∧ (∀ (x y : ℚ) (d : String),
      exceptIsOk (LineCounter.init [x, y, x, y] d) = true)
    ∧ (∀ s : LineCounter ℚ, s.line_start = s.line_end →
      ∀ p c : ℚ × ℚ, line_intersection p c s.line_start s.line_end = false) := by
  refine ⟨?_, ?_, ?_⟩
  · intro coords d h
    rcases coords with _ | ⟨a, _ | ⟨b, _ | ⟨c, _ | ⟨e, _ | ⟨f, rest⟩⟩⟩⟩⟩
    · rfl
    · rfl
    · rfl
    · rfl
    · exact absurd rfl h
    · rfl
  · intro x y d
    rfl
  · intro s h p c
    rw [h]
    exact line_intersection_degenerate_line p c s.line_end

/-- Witness for C4 amended: a three-coordinate list is rejected, a
concrete zero-length line is accepted, and the degenerate instance
reports no intersection for a step that passes through its point. -/
theorem C4_construction_amended_witness :
    exceptIsOk (LineCounter.init ([0, 500, 1280] : List ℚ) "vertical") = false
    ∧ exceptIsOk (LineCounter.init ([7, 7, 7, 7] : List ℚ) "vertical") = true
    ∧ line_intersection ((0:ℚ), 0) (10, 10)
        (LineCounter.mk0 ((5:ℚ), 5) (5, 5) "vertical").line_start
        (LineCounter.mk0 ((5:ℚ), 5) (5, 5) "vertical").line_end = false :=
  ⟨C4_construction_amended.1 [0, 500, 1280] "vertical" (by decide),
    C4_construction_amended.2.1 7 7 "vertical",
    C4_construction_amended.2.2 (LineCounter.mk0 (5, 5) (5, 5) "vertical")
      rfl (0, 0) (10, 10)⟩

/-! ### Claim C5 -/

lemma PyFloat.sub_nan_left (x : PyFloat) : PyFloat.sub .nan x = .nan := by
  cases x <;> rfl

lemma PyFloat.mul_nan_left (x : PyFloat) : PyFloat.mul .nan x = .nan := by
  cases x <;> rfl

lemma PyFloat.sub_nan_right (x : PyFloat) : PyFloat.sub x .nan = .nan := by
  cases x <;> rfl

lemma PyFloat.mul_nan_right (x : PyFloat) : PyFloat.mul x .nan = .nan := by
  cases x <;> rfl

lemma PyFloat.lt_nan_right (x : PyFloat) : PyFloat.lt x .nan = false := by
  cases x <;> rfl

lemma PyFloat.lt_nan_left (x : PyFloat) : PyFloat.lt .nan x = false := by
  cases x <;> rfl

/-- A NaN coordinate in the middle point makes the orientation predicate
false: every product touching NaN is NaN and every comparison with NaN is
false. -/
lemma ccw_nan_mid (A B C : PyFloat × PyFloat)
    (h : B.1 = .nan ∨ B.2 = .nan) : ccw A B C = false := by
  rcases h with h | h <;>
    simp [ccw, pyFloatPyNum, PyNum.gt, PyNum.mul, PyNum.sub, h,
      PyFloat.sub_nan_left, PyFloat.sub_nan_right, PyFloat.mul_nan_left,
      PyFloat.mul_nan_right, PyFloat.lt_nan_right, PyFloat.lt_nan_left]

/-- A NaN coordinate in the current centroid makes the whole intersection
test false. -/
lemma line_intersection_nan_p2 (p1 p2 C D : PyFloat × PyFloat)
    (h : p2.1 = .nan ∨ p2.2 = .nan) :
    line_intersection p1 p2 C D = false := by
  simp [line_intersection, ccw_nan_mid p1 p2 C h, ccw_nan_mid p1 p2 D h]

/-- A NaN coordinate in the current centroid means the loop body records
no crossing. -/
lemma LineCounter.hit_nan (s : LineCounter PyFloat) (o : TrackedObject PyFloat)
    (h : o.centroid.1 = .nan ∨ o.centroid.2 = .nan) : s.hit o = false := by
  unfold LineCounter.hit
  rcases hp : s.previous_positions o.track_id with _ | p
  · rfl
  · simp [line_intersection_nan_p2 p o.centroid s.line_start s.line_end h]

/-- A concrete counter state over Python floats: identity 1 was last seen
at the finite centroid (0, 0). -/
def nanCtrState : LineCounter PyFloat :=
  { LineCounter.mk0 (.fin 0, .fin 500) (.fin 1280, .fin 500) "vertical" with
    previous_positions :=
      Function.update (fun _ => none) 1 (some (.fin 0, .fin 0)) }

/-- A concrete observation of identity 1 whose centroid is non-finite. -/
def nanObj : TrackedObject PyFloat :=
  ⟨1, [], .fin 1, 2, "car", (.nan, .nan)⟩

/-- Counterexample to C5 as stated: processing an observation whose
centroid is non-finite DOES update the identity's registry entry — the
code has no finiteness check, so `previous_positions[1]` changes from the
finite (0,0) to the NaN centroid. -/
theorem C5_nonfinite_counterexample :
    (nanCtrState.update [nanObj]).previous_positions 1 ≠
      nanCtrState.previous_positions 1 := by
  show (nanCtrState.step nanObj).previous_positions 1 ≠
    nanCtrState.previous_positions 1
  rw [LineCounter.step_eq]
  show Function.update nanCtrState.previous_positions nanObj.track_id
    (some nanObj.centroid) 1 ≠ nanCtrState.previous_positions 1
  rw [show nanObj.track_id = (1 : Int) from rfl, Function.update_same]
  simp [nanObj, nanCtrState]

/-- Finiteness of a Python float: only an actual number is finite; NaN
and the two infinities are the non-finite values. -/
def PyFloat.isFinite : PyFloat → Bool
  | .fin _ => true
  | _ => false

/-- A concrete counter whose line is the vertical segment (5,-10)-(5,10),
with identity 1 last seen at the finite centroid (0, 0). -/
def infCtrState : LineCounter PyFloat :=
  { LineCounter.mk0 (.fin 5, .fin (-10)) (.fin 5, .fin 10) "vertical" with
    previous_positions :=
      Function.update (fun _ => none) 1 (some (.fin 0, .fin 0)) }

/-- A concrete observation of identity 1 whose centroid has an infinite
x coordinate. -/
def infObj : TrackedObject PyFloat :=
  ⟨1, [], .fin 1, 2, "car", (.pinf, .fin 0)⟩

/-- The trajectory step (0,0) → (+inf,0) satisfies the intersection test
against the line (5,-10)-(5,10): infinities propagate through the
products and comparisons with infinities are NOT all false, so an
infinite centroid can register as a crossing. -/
lemma line_intersection_inf_example :
    line_intersection ((.fin 0 : PyFloat), .fin 0) (.pinf, .fin 0)
      (.fin 5, .fin (-10)) (.fin 5, .fin 10) = true := by
  norm_num [line_intersection, ccw, pyFloatPyNum, PyNum.gt, PyNum.sub,
    PyNum.mul, PyFloat.sub, PyFloat.mul, PyFloat.lt]

/-! ### Claim C6 -/

/-- Concrete spec-scenario counter: line (0,500)-(1280,500), vertical. -/
def vCtr : LineCounter ℚ := LineCounter.mk0 (0, 500) (1280, 500) "vertical"

/-- Concrete observation of identity 7 at centroid (640, 480). -/
def obj7 : TrackedObject ℚ := ⟨7, [640, 470, 640, 490], 1, 2, "car", (640, 480)⟩

lemma LineCounter.hit_of_no_prev {α : Type} [PyNum α] (s : LineCounter α)
    (o : TrackedObject α) (h : s.previous_positions o.track_id = none) :
    s.hit o = false := by
  unfold LineCounter.hit
  rw [h]

/-- When the loop body records no crossing, the step only overwrites the
previous position. -/
lemma LineCounter.step_no_hit {α : Type} [PyNum α] (s : LineCounter α)
    (o : TrackedObject α) (h : s.hit o = false) :
    s.step o =
      { s with
        previous_positions :=
          Function.update s.previous_positions o.track_id (some o.centroid) } := by
  rw [LineCounter.step_eq, h]
  simp

/-- Claim C6: an identity's first observation (no registry entry at the
start of processing it) produces no CrossingEvent, changes no counter,
leaves the crossed-set unchanged, and only installs the centroid as the
stored previous position. -/
theorem C6_first_sighting (s : LineCounter ℚ) (o : TrackedObject ℚ)
    (h : s.previous_positions o.track_id = none) :
    (s.step o).crossing_events = s.crossing_events
    ∧ (s.step o).count_up = s.count_up
    ∧ (s.step o).count_down = s.count_down
    ∧ (s.step o).count_left = s.count_left
    ∧ (s.step o).count_right = s.count_right
    ∧ (s.step o).crossed_ids = s.crossed_ids
    ∧ (s.step o).previous_positions =
        Function.update s.previous_positions o.track_id (some o.centroid) := by
  have hh := s.hit_of_no_prev o h
  rw [LineCounter.step_no_hit s o hh]
  exact ⟨rfl, rfl, rfl, rfl, rfl, rfl, rfl⟩

/-- Witness for C6: the spec's identity 7 first observed at (640, 480),
far below the configured line, produces nothing but a registry entry. -/
theorem C6_first_sighting_witness :
    (vCtr.step obj7).crossing_events = vCtr.crossing_events
    ∧ (vCtr.step obj7).count_up = vCtr.count_up
    ∧ (vCtr.step obj7).count_down = vCtr.count_down
    ∧ (vCtr.step obj7).count_left = vCtr.count_left
    ∧ (vCtr.step obj7).count_right = vCtr.count_right
    ∧ (vCtr.step obj7).crossed_ids = vCtr.crossed_ids
    ∧ (vCtr.step obj7).previous_positions =
        Function.update vCtr.previous_positions obj7.track_id
          (some obj7.centroid) :=
  C6_first_sighting vCtr obj7 rfl

/-! ### Claim C7 -/

/-- Claim C7: immediately after `reset()`, `get_statistics` is all zeros,
the event log is empty, and registry and crossed-set are cleared; any
observation processed right after a reset is a fresh first sighting (no
event, total count still zero, centroid installed), even for a token seen
or crossed before the reset. -/
theorem C7_reset (s : LineCounter ℚ) (o : TrackedObject ℚ) :
    s.reset.get_statistics = ⟨0, 0, 0, 0, 0⟩
    ∧ s.reset.crossing_events = []
    ∧ (∀ i : Int, s.reset.previous_positions i = none)
    ∧ (∀ i : Int, s.reset.crossed_ids i = false)
    ∧ (s.reset.step o).crossing_events = []
    ∧ (s.reset.step o).get_total_count = 0
    ∧ (s.reset.step o).previous_positions o.track_id = some o.centroid := by
  have hh := s.reset.hit_of_no_prev o rfl
  rw [LineCounter.step_no_hit s.reset o hh]
  refine ⟨rfl, rfl, fun i => rfl, fun i => rfl, rfl, rfl, ?_⟩
  show Function.update s.reset.previous_positions o.track_id
    (some o.centroid) o.track_id = some o.centroid
  rw [Function.update_same]

/-! ### Claim C8 -/

lemma LineCounter.step_counts_le {α : Type} [PyNum α] (s : LineCounter α)
    (o : TrackedObject α) :
    s.count_up ≤ (s.step o).count_up
    ∧ s.count_down ≤ (s.step o).count_down
    ∧ s.count_left ≤ (s.step o).count_left
    ∧ s.count_right ≤ (s.step o).count_right := by
  rw [LineCounter.step_eq]
  refine ⟨?_, ?_, ?_, ?_⟩ <;> (dsimp only; split_ifs <;> omega)

lemma LineCounter.update_counts_le {α : Type} [PyNum α] :
    ∀ (l : List (TrackedObject α)) (s : LineCounter α),
      s.count_up ≤ (s.update l).count_up
      ∧ s.count_down ≤ (s.update l).count_down
      ∧ s.count_left ≤ (s.update l).count_left
      ∧ s.count_right ≤ (s.update l).count_right := by
  intro l
  induction l with
  | nil => exact fun s => ⟨le_refl _, le_refl _, le_refl _, le_refl _⟩
  | cons o l ih =>
    intro s
    have h1 := s.step_counts_le o
    have h2 := ih (s.step o)
    exact ⟨le_trans h1.1 h2.1, le_trans h1.2.1 h2.2.1,
      le_trans h1.2.2.1 h2.2.2.1, le_trans h1.2.2.2 h2.2.2.2⟩

/-- Claim C8: across one `update` call (hence across any tick sequence
without reset), each direction counter is non-decreasing, so
`get_total_count` is non-decreasing; `get_total_count` always equals the
sum of the four counters and is what `get_statistics` reports as
`total`. -/
theorem C8_counters_monotone (s : LineCounter ℚ)
    (objs : List (TrackedObject ℚ)) :
    s.count_up ≤ (s.update objs).count_up
    ∧ s.count_down ≤ (s.update objs).count_down
    ∧ s.count_left ≤ (s.update objs).count_left
    ∧ s.count_right ≤ (s.update objs).count_right
    ∧ s.get_total_count ≤ (s.update objs).get_total_count
    ∧ (∀ t : LineCounter ℚ,
        t.get_total_count = t.count_up + t.count_down + t.count_left + t.count_right)
    ∧ (∀ t : LineCounter ℚ, t.get_statistics.total = t.get_total_count) := by
  have h := LineCounter.update_counts_le objs s
  refine ⟨h.1, h.2.1, h.2.2.1, h.2.2.2, ?_, fun t => rfl, fun t => rfl⟩
  unfold LineCounter.get_total_count
  have := h.1
  have := h.2.1
  have := h.2.2.1
  have := h.2.2.2
  omega

/-! ### Component corollaries of the step characterisation -/

lemma LineCounter.step_prev {α : Type} [PyNum α] (s : LineCounter α)
    (o : TrackedObject α) :
    (s.step o).previous_positions =
      Function.update s.previous_positions o.track_id (some o.centroid) := by
  rw [LineCounter.step_eq]

lemma LineCounter.step_crossed {α : Type} [PyNum α] (s : LineCounter α)
    (o : TrackedObject α) :
    (s.step o).crossed_ids = if s.hit o then
      Function.update s.crossed_ids o.track_id true else s.crossed_ids := by
  rw [LineCounter.step_eq]

lemma LineCounter.step_events {α : Type} [PyNum α] (s : LineCounter α)
    (o : TrackedObject α) :
    (s.step o).crossing_events = if s.hit o then
      s.crossing_events ++
        [⟨o.track_id, (), s.stepDir o, o.class_name, o.centroid⟩]
      else s.crossing_events := by
  rw [LineCounter.step_eq]

lemma LineCounter.step_count_up {α : Type} [PyNum α] (s : LineCounter α)
    (o : TrackedObject α) :
    (s.step o).count_up = if s.hit o ∧ s.stepDir o = "up" then
      s.count_up + 1 else s.count_up := by
  rw [LineCounter.step_eq]

lemma LineCounter.step_count_down {α : Type} [PyNum α] (s : LineCounter α)
    (o : TrackedObject α) :
    (s.step o).count_down = if s.hit o ∧ s.stepDir o = "down" then
      s.count_down + 1 else s.count_down := by
  rw [LineCounter.step_eq]

lemma LineCounter.step_count_left {α : Type} [PyNum α] (s : LineCounter α)
    (o : TrackedObject α) :
    (s.step o).count_left = if s.hit o ∧ s.stepDir o = "left" then
      s.count_left + 1 else s.count_left := by
  rw [LineCounter.step_eq]

lemma LineCounter.step_count_right {α : Type} [PyNum α] (s : LineCounter α)
    (o : TrackedObject α) :
    (s.step o).count_right = if s.hit o ∧ s.stepDir o = "right" then
      s.count_right + 1 else s.count_right := by
  rw [LineCounter.step_eq]

lemma LineCounter.step_line_start {α : Type} [PyNum α] (s : LineCounter α)
    (o : TrackedObject α) : (s.step o).line_start = s.line_start := by
  rw [LineCounter.step_eq]

lemma LineCounter.step_line_end {α : Type} [PyNum α] (s : LineCounter α)
    (o : TrackedObject α) : (s.step o).line_end = s.line_end := by
  rw [LineCounter.step_eq]

lemma LineCounter.step_direction_type {α : Type} [PyNum α] (s : LineCounter α)
    (o : TrackedObject α) : (s.step o).direction_type = s.direction_type := by
  rw [LineCounter.step_eq]

lemma LineCounter.step_total {α : Type} [PyNum α] (s : LineCounter α)
    (o : TrackedObject α) :
    (s.step o).get_total_count =
      s.get_total_count + (if s.hit o then 1 else 0) := by
  unfold LineCounter.get_total_count
  rw [LineCounter.step_count_up, LineCounter.step_count_down,
    LineCounter.step_count_left, LineCounter.step_count_right]
  rcases s.stepDir_mem o with h | h | h | h <;>
    by_cases hh : s.hit o <;> simp [h, hh] <;> omega

lemma LineCounter.step_events_length {α : Type} [PyNum α] (s : LineCounter α)
    (o : TrackedObject α) :
    (s.step o).crossing_events.length =
      s.crossing_events.length + (if s.hit o then 1 else 0) := by
  rw [LineCounter.step_events]
  split_ifs <;> simp

/-! ### Claim C1 -/

/-- The dedup invariant carried through every update: an uncrossed
identity has no event yet, and no identity ever has more than one. -/
def DedupInv {α : Type} (s : LineCounter α) : Prop :=
  ∀ i : Int,
    (s.crossed_ids i = false →
      (s.crossing_events.countP fun e => decide (e.track_id = i)) = 0)
    ∧ (s.crossing_events.countP fun e => decide (e.track_id = i)) ≤ 1

lemma LineCounter.step_dedup {α : Type} [PyNum α] (s : LineCounter α)
    (o : TrackedObject α) (h : DedupInv s) : DedupInv (s.step o) := by
  intro i
  rw [LineCounter.step_events, LineCounter.step_crossed]
  by_cases hh : s.hit o
  · have hc0 : s.crossed_ids o.track_id = false := s.hit_crossed o hh
    have h0 := (h o.track_id).1 hc0
    rw [if_pos hh, if_pos hh, List.countP_append]
    by_cases hi : i = o.track_id
    · subst hi
      constructor
      · intro hcr
        rw [Function.update_same] at hcr
        cases hcr
      · simp [h0]
    · have hne : o.track_id ≠ i := fun hc => hi hc.symm
      constructor
      · intro hcr
        rw [Function.update_noteq (fun hc => hi hc) true s.crossed_ids] at hcr
        have := (h i).1 hcr
        simp [this, hne]
      · have := (h i).2
        simp [hne]
        omega
  · rw [if_neg hh, if_neg hh]
    exact h i

/-- Crossing totals equal the event-log length at every reachable state. -/
def TotalInv {α : Type} (s : LineCounter α) : Prop :=
  s.get_total_count = s.crossing_events.length

lemma LineCounter.step_totalInv {α : Type} [PyNum α] (s : LineCounter α)
    (o : TrackedObject α) (h : TotalInv s) : TotalInv (s.step o) := by
  unfold TotalInv at h ⊢
  rw [LineCounter.step_total, LineCounter.step_events_length, h]

/-- Claim C1: from a fresh counter, across any sequence of ticks without
a reset, each identity contributes at most one CrossingEvent, and the
total count equals the number of events (each event accounts for exactly
one counter increment), so at most one increment is attributed to any
identity however many times it geometrically re-crosses the line. -/
theorem C1_dedup_invariant (ls le : ℚ × ℚ) (dt : String)
    (ticks : List (List (TrackedObject ℚ))) (i : Int) :
    (((LineCounter.mk0 ls le dt).run ticks).crossing_events.countP
        fun e => decide (e.track_id = i)) ≤ 1
    ∧ ((LineCounter.mk0 ls le dt).run ticks).get_total_count =
        ((LineCounter.mk0 ls le dt).run ticks).crossing_events.length := by
  constructor
  · have hrun := LineCounter.run_inv DedupInv
      (fun s o hs => s.step_dedup o hs) ticks (LineCounter.mk0 ls le dt)
      (fun i => by simp [LineCounter.mk0])
    exact (hrun i).2
  · exact LineCounter.run_inv TotalInv
      (fun s o hs => s.step_totalInv o hs) ticks (LineCounter.mk0 ls le dt) rfl

/-! ### Claim C10 -/

lemma LineCounter.hit_prev_some {α : Type} [PyNum α] (s : LineCounter α)
    (o : TrackedObject α) (h : s.hit o = true) :
    ∃ p, s.previous_positions o.track_id = some p := by
  unfold LineCounter.hit at h
  rcases hp : s.previous_positions o.track_id with _ | p
  · rw [hp] at h
    cases h
  · exact ⟨p, rfl⟩

lemma LineCounter.stepDir_vert {α : Type} [PyNum α] (s : LineCounter α)
    (o : TrackedObject α) (h : s.direction_type = "vertical") :
    s.stepDir o = "up" ∨ s.stepDir o = "down" := by
  unfold LineCounter.stepDir
  rcases hp : s.previous_positions o.track_id with _ | p
  · right
    rfl
  · show s.determine_direction p o.centroid = "up" ∨
      s.determine_direction p o.centroid = "down"
    unfold LineCounter.determine_direction
    rw [if_pos h]
    split_ifs <;> simp

lemma LineCounter.stepDir_horiz {α : Type} [PyNum α] (s : LineCounter α)
    (o : TrackedObject α) (h : ¬s.direction_type = "vertical")
    (hh : s.hit o = true) :
    s.stepDir o = "left" ∨ s.stepDir o = "right" := by
  obtain ⟨p, hp⟩ := s.hit_prev_some o hh
  unfold LineCounter.stepDir
  rw [hp]
  show s.determine_direction p o.centroid = "left" ∨
    s.determine_direction p o.centroid = "right"
  unfold LineCounter.determine_direction
  rw [if_neg h]
  split_ifs <;> simp

/-- Invariant of a counter configured with the exact tag "vertical". -/
def VertInv {α : Type} (s : LineCounter α) : Prop :=
  s.direction_type = "vertical"
  ∧ (∀ e ∈ s.crossing_events, e.direction = "up" ∨ e.direction = "down")
  ∧ s.count_left = 0 ∧ s.count_right = 0

/-- Invariant of a counter configured with any other tag: the `else`
branch of `_determine_direction` treats it as horizontal. -/
def HorizInv {α : Type} (s : LineCounter α) : Prop :=
  s.direction_type ≠ "vertical"
  ∧ (∀ e ∈ s.crossing_events, e.direction = "left" ∨ e.direction = "right")
  ∧ s.count_up = 0 ∧ s.count_down = 0

lemma LineCounter.step_vertInv {α : Type} [PyNum α] (s : LineCounter α)
    (o : TrackedObject α) (h : VertInv s) : VertInv (s.step o) := by
  obtain ⟨hdt, hev, hl, hr⟩ := h
  refine ⟨?_, ?_, ?_, ?_⟩
  · rw [s.step_direction_type]
    exact hdt
  · rw [s.step_events]
    split_ifs with hh
    · intro e he
      rcases List.mem_append.mp he with he | he
      · exact hev e he
      · rw [List.mem_singleton.mp he]
        exact s.stepDir_vert o hdt
    · exact hev
  · rw [s.step_count_left]
    split_ifs with hc
    · exfalso
      rcases s.stepDir_vert o hdt with h2 | h2 <;> rw [h2] at hc <;>
        exact absurd hc.2 (by decide)
    · exact hl
  · rw [s.step_count_right]
    split_ifs with hc
    · exfalso
      rcases s.stepDir_vert o hdt with h2 | h2 <;> rw [h2] at hc <;>
        exact absurd hc.2 (by decide)
    · exact hr

lemma LineCounter.step_horizInv {α : Type} [PyNum α] (s : LineCounter α)
    (o : TrackedObject α) (h : HorizInv s) : HorizInv (s.step o) := by
  obtain ⟨hdt, hev, hu, hd⟩ := h
  refine ⟨?_, ?_, ?_, ?_⟩
  · rw [s.step_direction_type]
    exact hdt
  · rw [s.step_events]
    split_ifs with hh
    · intro e he
      rcases List.mem_append.mp he with he | he
      · exact hev e he
      · rw [List.mem_singleton.mp he]
        exact s.stepDir_horiz o hdt hh
    · exact hev
  · rw [s.step_count_up]
    split_ifs with hc
    · exfalso
      rcases s.stepDir_horiz o hdt hc.1 with h2 | h2 <;> rw [h2] at hc <;>
        exact absurd hc.2 (by decide)
    · exact hu
  · rw [s.step_count_down]
    split_ifs with hc
    · exfalso
      rcases s.stepDir_horiz o hdt hc.1 with h2 | h2 <;> rw [h2] at hc <;>
        exact absurd hc.2 (by decide)
    · exact hd

/-- Claim C10: a counter configured with the exact tag "vertical" only
ever records directions "up"/"down" and its left/right counters stay
zero; any other tag — "horizontal" or an arbitrary string — takes the
`else` branch (no error is raised, `update` is total), records only
"left"/"right" and keeps up/down at zero. -/
theorem C10_orientation_partition (ls le : ℚ × ℚ) (dt : String)
    (ticks : List (List (TrackedObject ℚ))) :
    (dt = "vertical" →
      (∀ e ∈ ((LineCounter.mk0 ls le dt).run ticks).crossing_events,
        e.direction = "up" ∨ e.direction = "down")
      ∧ ((LineCounter.mk0 ls le dt).run ticks).count_left = 0
      ∧ ((LineCounter.mk0 ls le dt).run ticks).count_right = 0)
    ∧ (dt ≠ "vertical" →
      (∀ e ∈ ((LineCounter.mk0 ls le dt).run ticks).crossing_events,
        e.direction = "left" ∨ e.direction = "right")
      ∧ ((LineCounter.mk0 ls le dt).run ticks).count_up = 0
      ∧ ((LineCounter.mk0 ls le dt).run ticks).count_down = 0) := by
  constructor
  · intro h
    have hrun := LineCounter.run_inv VertInv
      (fun s o hs => s.step_vertInv o hs) ticks (LineCounter.mk0 ls le dt)
      ⟨h, fun e he => absurd he (List.not_mem_nil e), rfl, rfl⟩
    exact ⟨hrun.2.1, hrun.2.2⟩
  · intro h
    have hrun := LineCounter.run_inv HorizInv
      (fun s o hs => s.step_horizInv o hs) ticks (LineCounter.mk0 ls le dt)
      ⟨h, fun e he => absurd he (List.not_mem_nil e), rfl, rfl⟩
    exact ⟨hrun.2.1, hrun.2.2⟩

/-- Witness for C10: the vertical clause at the spec's line with one
crossing tick, and the horizontal clause at an arbitrary tag
"diagonal" with the same tick. -/
theorem C10_orientation_partition_witness :
    ((LineCounter.mk0 ((0:ℚ), 500) (1280, 500) "vertical").run
        [[obj7]]).count_left = 0
    ∧ ((LineCounter.mk0 ((0:ℚ), 500) (1280, 500) "vertical").run
        [[obj7]]).count_right = 0
    ∧ ((LineCounter.mk0 ((0:ℚ), 500) (1280, 500) "diagonal").run
        [[obj7]]).count_up = 0
    ∧ ((LineCounter.mk0 ((0:ℚ), 500) (1280, 500) "diagonal").run
        [[obj7]]).count_down = 0 :=
  ⟨((C10_orientation_partition (0, 500) (1280, 500) "vertical" [[obj7]]).1
      rfl).2.1,
    ((C10_orientation_partition (0, 500) (1280, 500) "vertical" [[obj7]]).1
      rfl).2.2,
    ((C10_orientation_partition (0, 500) (1280, 500) "diagonal" [[obj7]]).2
      (by decide)).2.1,
    ((C10_orientation_partition (0, 500) (1280, 500) "diagonal" [[obj7]]).2
      (by decide)).2.2⟩

/-! ### Claim C9 -/

/-- Two counter states that agree on everything observable except the
order of the event log. -/
def StEquiv {α : Type} (s t : LineCounter α) : Prop :=
  s.line_start = t.line_start ∧ s.line_end = t.line_end
  ∧ s.direction_type = t.direction_type
  ∧ s.previous_positions = t.previous_positions
  ∧ s.crossed_ids = t.crossed_ids
  ∧ s.count_up = t.count_up ∧ s.count_down = t.count_down
  ∧ s.count_left = t.count_left ∧ s.count_right = t.count_right
  ∧ s.crossing_events.Perm t.crossing_events

lemma stEquiv_refl {α : Type} (s : LineCounter α) : StEquiv s s :=
  ⟨rfl, rfl, rfl, rfl, rfl, rfl, rfl, rfl, rfl, List.Perm.refl _⟩

lemma stEquiv_trans {α : Type} {s t u : LineCounter α}
    (h : StEquiv s t) (g : StEquiv t u) : StEquiv s u := by
  obtain ⟨h1, h2, h3, h4, h5, h6, h7, h8, h9, h10⟩ := h
  obtain ⟨g1, g2, g3, g4, g5, g6, g7, g8, g9, g10⟩ := g
  exact ⟨h1.trans g1, h2.trans g2, h3.trans g3, h4.trans g4, h5.trans g5,
    h6.trans g6, h7.trans g7, h8.trans g8, h9.trans g9, h10.trans g10⟩

lemma LineCounter.hit_eq_some {α : Type} [PyNum α] (s : LineCounter α)
    (o : TrackedObject α) (p : α × α)
    (hp : s.previous_positions o.track_id = some p) :
    s.hit o = (line_intersection p o.centroid s.line_start s.line_end &&
      !(s.crossed_ids o.track_id)) := by
  unfold LineCounter.hit
  rw [hp]

lemma LineCounter.stepDir_eq_some {α : Type} [PyNum α] (s : LineCounter α)
    (o : TrackedObject α) (p : α × α)
    (hp : s.previous_positions o.track_id = some p) :
    s.stepDir o = s.determine_direction p o.centroid := by
  unfold LineCounter.stepDir
  rw [hp]

lemma LineCounter.stepDir_eq_none {α : Type} [PyNum α] (s : LineCounter α)
    (o : TrackedObject α) (hp : s.previous_positions o.track_id = none) :
    s.stepDir o = "down" := by
  unfold LineCounter.stepDir
  rw [hp]

lemma hit_congr {α : Type} [PyNum α] {s t : LineCounter α}
    (o : TrackedObject α) (h : StEquiv s t) : s.hit o = t.hit o := by
  obtain ⟨h1, h2, _, h4, h5, _, _, _, _, _⟩ := h
  unfold LineCounter.hit
  rw [h1, h2, h4, h5]

lemma stepDir_congr {α : Type} [PyNum α] {s t : LineCounter α}
    (o : TrackedObject α) (h : StEquiv s t) : s.stepDir o = t.stepDir o := by
  obtain ⟨_, _, h3, h4, _, _, _, _, _, _⟩ := h
  unfold LineCounter.stepDir LineCounter.determine_direction
  rw [h3, h4]

lemma step_congr {α : Type} [PyNum α] {s t : LineCounter α}
    (o : TrackedObject α) (h : StEquiv s t) : StEquiv (s.step o) (t.step o) := by
  have hh := hit_congr o h
  have hd := stepDir_congr o h
  obtain ⟨h1, h2, h3, h4, h5, h6, h7, h8, h9, h10⟩ := h
  refine ⟨?_, ?_, ?_, ?_, ?_, ?_, ?_, ?_, ?_, ?_⟩
  · rw [s.step_line_start, t.step_line_start]
    exact h1
  · rw [s.step_line_end, t.step_line_end]
    exact h2
  · rw [s.step_direction_type, t.step_direction_type]
    exact h3
  · rw [s.step_prev, t.step_prev, h4]
  · rw [s.step_crossed, t.step_crossed, hh, h5]
  · rw [s.step_count_up, t.step_count_up, hh, hd, h6]
  · rw [s.step_count_down, t.step_count_down, hh, hd, h7]
  · rw [s.step_count_left, t.step_count_left, hh, hd, h8]
  · rw [s.step_count_right, t.step_count_right, hh, hd, h9]
  · rw [s.step_events, t.step_events, hh, hd]
    split_ifs with hif
    · exact h10.append_right _
    · exact h10

lemma update_congr {α : Type} [PyNum α] :
    ∀ (l : List (TrackedObject α)) {s t : LineCounter α},
      StEquiv s t → StEquiv (s.update l) (t.update l) := by
  intro l
  induction l with
  | nil => intro s t h; exact h
  | cons o l ih =>
    intro s t h
    show StEquiv ((s.step o).update l) ((t.step o).update l)
    exact ih (step_congr o h)

lemma hit_step_other {α : Type} [PyNum α] (s : LineCounter α)
    (a b : TrackedObject α) (hne : b.track_id ≠ a.track_id) :
    (s.step a).hit b = s.hit b := by
  rcases hp : s.previous_positions b.track_id with _ | p
  · have h1 : (s.step a).previous_positions b.track_id = none := by
      rw [s.step_prev a, Function.update_noteq hne, hp]
    rw [s.hit_of_no_prev b hp, (s.step a).hit_of_no_prev b h1]
  · have h1 : (s.step a).previous_positions b.track_id = some p := by
      rw [s.step_prev a, Function.update_noteq hne, hp]
    rw [s.hit_eq_some b p hp, (s.step a).hit_eq_some b p h1,
      s.step_line_start a, s.step_line_end a, s.step_crossed a]
    split_ifs with hh
    · rw [Function.update_noteq hne]
    · rfl

lemma stepDir_step_other {α : Type} [PyNum α] (s : LineCounter α)
    (a b : TrackedObject α) (hne : b.track_id ≠ a.track_id) :
    (s.step a).stepDir b = s.stepDir b := by
  rcases hp : s.previous_positions b.track_id with _ | p
  · have h1 : (s.step a).previous_positions b.track_id = none := by
      rw [s.step_prev a, Function.update_noteq hne, hp]
    rw [s.stepDir_eq_none b hp, (s.step a).stepDir_eq_none b h1]
  · have h1 : (s.step a).previous_positions b.track_id = some p := by
      rw [s.step_prev a, Function.update_noteq hne, hp]
    rw [s.stepDir_eq_some b p hp, (s.step a).stepDir_eq_some b p h1]
    unfold LineCounter.determine_direction
    rw [s.step_direction_type a]

/-- Processing two observations with distinct identities commutes, up to
the order of the two appended events. -/
lemma step_swap {α : Type} [PyNum α] (s : LineCounter α)
    (a b : TrackedObject α) (hne : a.track_id ≠ b.track_id) :
    StEquiv ((s.step a).step b) ((s.step b).step a) := by
  have hba : b.track_id ≠ a.track_id := fun h => hne h.symm
  have hitba : (s.step a).hit b = s.hit b := hit_step_other s a b hba
  have hitab : (s.step b).hit a = s.hit a := hit_step_other s b a hne
  have dirba : (s.step a).stepDir b = s.stepDir b := stepDir_step_other s a b hba
  have dirab : (s.step b).stepDir a = s.stepDir a := stepDir_step_other s b a hne
  refine ⟨?_, ?_, ?_, ?_, ?_, ?_, ?_, ?_, ?_, ?_⟩
  · rw [LineCounter.step_line_start, LineCounter.step_line_start,
      LineCounter.step_line_start, LineCounter.step_line_start]
  · rw [LineCounter.step_line_end, LineCounter.step_line_end,
      LineCounter.step_line_end, LineCounter.step_line_end]
  · rw [LineCounter.step_direction_type, LineCounter.step_direction_type,
      LineCounter.step_direction_type, LineCounter.step_direction_type]
  · rw [LineCounter.step_prev, LineCounter.step_prev, LineCounter.step_prev,
      LineCounter.step_prev]
    exact Function.update_comm hne _ _ _
  · rw [LineCounter.step_crossed (s.step a) b, LineCounter.step_crossed (s.step b) a,
      hitba, hitab, LineCounter.step_crossed s a, LineCounter.step_crossed s b]
    split_ifs <;> first
      | rfl
      | exact Function.update_comm hne _ _ _
  · rw [LineCounter.step_count_up (s.step a) b, LineCounter.step_count_up (s.step b) a,
      hitba, hitab, dirba, dirab,
      LineCounter.step_count_up s a, LineCounter.step_count_up s b]
    split_ifs <;> omega
  · rw [LineCounter.step_count_down (s.step a) b, LineCounter.step_count_down (s.step b) a,
      hitba, hitab, dirba, dirab,
      LineCounter.step_count_down s a, LineCounter.step_count_down s b]
    split_ifs <;> omega
  · rw [LineCounter.step_count_left (s.step a) b, LineCounter.step_count_left (s.step b) a,
      hitba, hitab, dirba, dirab,
      LineCounter.step_count_left s a, LineCounter.step_count_left s b]
    split_ifs <;> omega
  · rw [LineCounter.step_count_right (s.step a) b, LineCounter.step_count_right (s.step b) a,
      hitba, hitab, dirba, dirab,
      LineCounter.step_count_right s a, LineCounter.step_count_right s b]
    split_ifs <;> omega
  · rw [LineCounter.step_events (s.step a) b, LineCounter.step_events (s.step b) a,
      hitba, hitab, dirba, dirab,
      LineCounter.step_events s a, LineCounter.step_events s b]
    by_cases ha : s.hit a <;> by_cases hb : s.hit b <;> simp [ha, hb]
    exact List.Perm.append_left _ (List.Perm.swap _ _ _)

lemma update_perm_equiv {α : Type} [PyNum α] :
    ∀ {l1 l2 : List (TrackedObject α)}, l1.Perm l2 →
      (l1.map TrackedObject.track_id).Nodup →
      ∀ s : LineCounter α, StEquiv (s.update l1) (s.update l2) := by
  intro l1 l2 hp
  induction hp with
  | nil => exact fun _ s => stEquiv_refl _
  | cons x h ih =>
    intro hnd s
    rw [List.map_cons, List.nodup_cons] at hnd
    show StEquiv ((s.step x).update _) ((s.step x).update _)
    exact ih hnd.2 (s.step x)
  | swap x y l =>
    intro hnd s
    have hyx : y.track_id ≠ x.track_id := by
      rw [List.map_cons, List.map_cons, List.nodup_cons] at hnd
      intro hcontra
      exact hnd.1 (by rw [hcontra]; exact List.mem_cons_self _ _)
    show StEquiv (((s.step y).step x).update l) (((s.step x).step y).update l)
    exact update_congr l (step_swap s y x hyx)
  | trans h1 h2 ih1 ih2 =>
    intro hnd s
    have hnd2 := ((h1.map TrackedObject.track_id).nodup_iff).mp hnd
    exact stEquiv_trans (ih1 hnd s) (ih2 hnd2 s)

/-- Claim C9: for a tick whose observation list has pairwise-distinct
identities, processing any permutation of the list yields the same final
registry, crossed-set and counters, and the same multiset of
CrossingEvents (equal up to log order; timestamps are opaque in this
model). -/
theorem C9_order_independence (s : LineCounter ℚ)
    (l1 l2 : List (TrackedObject ℚ)) (hp : l1.Perm l2)
    (hnd : (l1.map TrackedObject.track_id).Nodup) :
    (s.update l1).previous_positions = (s.update l2).previous_positions
    ∧ (s.update l1).crossed_ids = (s.update l2).crossed_ids
    ∧ (s.update l1).count_up = (s.update l2).count_up
    ∧ (s.update l1).count_down = (s.update l2).count_down
    ∧ (s.update l1).count_left = (s.update l2).count_left
    ∧ (s.update l1).count_right = (s.update l2).count_right
    ∧ (s.update l1).crossing_events.Perm (s.update l2).crossing_events := by
  obtain ⟨_, _, _, h4, h5, h6, h7, h8, h9, h10⟩ := update_perm_equiv hp hnd s
  exact ⟨h4, h5, h6, h7, h8, h9, h10⟩

/-- Two concrete observations with distinct identities. -/
def objA : TrackedObject ℚ := ⟨1, [], 1, 2, "car", (640, 480)⟩

/-- A second concrete observation, identity 2. -/
def objB : TrackedObject ℚ := ⟨2, [], 1, 7, "truck", (100, 520)⟩

/-- Witness for C9: the two orders of a concrete two-observation tick. -/
theorem C9_order_independence_witness :
    (vCtr.update [objA, objB]).previous_positions =
      (vCtr.update [objB, objA]).previous_positions
    ∧ (vCtr.update [objA, objB]).crossed_ids =
      (vCtr.update [objB, objA]).crossed_ids
    ∧ (vCtr.update [objA, objB]).count_up = (vCtr.update [objB, objA]).count_up
    ∧ (vCtr.update [objA, objB]).count_down =
      (vCtr.update [objB, objA]).count_down
    ∧ (vCtr.update [objA, objB]).count_left =
      (vCtr.update [objB, objA]).count_left
    ∧ (vCtr.update [objA, objB]).count_right =
      (vCtr.update [objB, objA]).count_right
    ∧ (vCtr.update [objA, objB]).crossing_events.Perm
      (vCtr.update [objB, objA]).crossing_events :=
  C9_order_independence vCtr [objA, objB] [objB, objA]
    (List.Perm.swap objB objA []) (by decide)

/-! ### Claim C5, amended statement -/

/-- The concrete infinite-centroid observation registers as a crossing:
a previous position exists, the intersection test passes, and identity 1
has not crossed yet. -/
lemma infCtr_hit : infCtrState.hit infObj = true := by
  have hprev : infCtrState.previous_positions infObj.track_id =
      some (.fin 0, .fin 0) := by
    show Function.update (fun _ : Int => (none : Option (PyFloat × PyFloat)))
      1 (some (.fin 0, .fin 0)) infObj.track_id = some (.fin 0, .fin 0)
    rw [show infObj.track_id = (1 : Int) from rfl, Function.update_same]
  rw [infCtrState.hit_eq_some infObj _ hprev]
  have h1 : infObj.centroid = ((.pinf : PyFloat), .fin 0) := rfl
  have h2 : infCtrState.line_start = ((.fin 5 : PyFloat), .fin (-10)) := rfl
  have h3 : infCtrState.line_end = ((.fin 5 : PyFloat), .fin 10) := rfl
  have h4 : infCtrState.crossed_ids infObj.track_id = false := rfl
  rw [h1, h2, h3, h4, line_intersection_inf_example]
  rfl

/-- Claim C5 amended: `update` performs no finiteness check, so an
observation with a non-finite centroid is not skipped — it is processed
like any other.  Its registry entry is always overwritten with the
non-finite centroid and the tick does not crash (the update is total).
The no-event half of the claim is not recoverable in general either: for
a NaN coordinate no CrossingEvent is produced and no counter or crossed
flag changes (every comparison with NaN is false), but an infinite
centroid can pass the intersection test, in which case a CrossingEvent
IS produced and a counter incremented. -/
theorem C5_nonfinite_amended :
    (∀ (s : LineCounter PyFloat) (o : TrackedObject PyFloat),
      (o.centroid.1.isFinite = false ∨ o.centroid.2.isFinite = false) →
        (s.step o).previous_positions =
          Function.update s.previous_positions o.track_id (some o.centroid))
    ∧ (∀ (s : LineCounter PyFloat) (o : TrackedObject PyFloat),
      (o.centroid.1 = .nan ∨ o.centroid.2 = .nan) →
        (s.step o).crossing_events = s.crossing_events
        ∧ (s.step o).count_up = s.count_up
        ∧ (s.step o).count_down = s.count_down
        ∧ (s.step o).count_left = s.count_left
        ∧ (s.step o).count_right = s.count_right
        ∧ (s.step o).crossed_ids = s.crossed_ids)
    ∧ (infObj.centroid.1.isFinite = false
        ∧ (infCtrState.step infObj).crossing_events.length = 1
        ∧ (infCtrState.step infObj).get_total_count = 1) := by
  refine ⟨fun s o _ => s.step_prev o, fun s o h => ?_, rfl, ?_, ?_⟩
  · rw [LineCounter.step_eq]
    simp [LineCounter.hit_nan s o h]
  · rw [LineCounter.step_events, if_pos infCtr_hit]
    rfl
  · rw [LineCounter.step_total, if_pos infCtr_hit]
    rfl

/-- Witness for C5 amended: both hypothesis-bearing clauses applied to
the concrete NaN observation and state. -/
theorem C5_nonfinite_amended_witness :
    (nanCtrState.step nanObj).previous_positions =
      Function.update nanCtrState.previous_positions nanObj.track_id
        (some nanObj.centroid)
    ∧ (nanCtrState.step nanObj).crossing_events =
      nanCtrState.crossing_events :=
  ⟨C5_nonfinite_amended.1 nanCtrState nanObj (Or.inl rfl),
    (C5_nonfinite_amended.2.1 nanCtrState nanObj (Or.inl rfl)).1⟩
